import Mathlib

/-!
Verification development for the hospital operations analysis pipeline.

Shallow embedding of the relevant parts of the repository:
 - `src/hospital_ops/data_loader.py` (ingestion and cleaning),
 - `src/hospital_ops/build_gold.py` (warehouse build),
 - `src/hospital_ops/train_admission_model.py` (preprocessing configuration),
 - `app/main.py` (HTTP service).

Pandas dataframes are embedded as lists of row structures; column-wise pandas
operations become per-row functions mapped over the list.  Missing values
(NaN/None) are `Option.none`.  Numeric values are rationals.  Parsers that the
code delegates to libraries (`pd.to_datetime`, `pd.to_numeric`) are either
quantified over or modelled as explicit executable functions.
-/

/-- A calendar timestamp to minute precision, the granularity used by the
pipeline's datetime reconciliation. -/
structure DateTime where
  year : Nat
  month : Nat
  day : Nat
  hour : Nat
  minute : Nat
deriving DecidableEq, Repr

/-- A calendar date, as produced by `.dt.date` on the event timestamp. -/
structure Date where
  year : Nat
  month : Nat
  day : Nat
deriving DecidableEq, Repr

/-- Models Python `astype(str)` on an object column: a present string is kept
as-is, a missing value (NaN) becomes the literal string "nan". -/
def pyStr : Option String → String
  | some s => s
  | none => "nan"

/-! ### Character-level string operations

The Python code uses `str.strip`, `str.lower`, `str.split`, `startswith`,
substring tests and decimal parsing.  They are embedded here as structural
recursions over the character list of a string (the data involved is ASCII),
so that every definition evaluates on concrete inputs. -/

def isWS (c : Char) : Bool :=
  c = ' ' || c = '\t' || c = '\n' || c = '\r'

/-- Python `str.strip()`: drop leading and trailing whitespace. -/
def pyStrip (s : String) : String :=
  String.mk (((s.data.dropWhile isWS).reverse.dropWhile isWS).reverse)

/-- Python `str.lower()` (ASCII). -/
def pyLower (s : String) : String :=
  String.mk (s.data.map Char.toLower)

/-- Split a character list on a separator character; like `str.split(sep)`,
the empty input gives one empty field. -/
def splitCL (sep : Char) (l : List Char) : List (List Char) :=
  l.foldr
    (fun c acc =>
      match acc with
      | [] => [[c]]
      | cur :: rest => if c = sep then [] :: cur :: rest else (c :: cur) :: rest)
    [[]]

def pySplit (sep : Char) (s : String) : List String :=
  (splitCL sep s.data).map String.mk

def startsWithCL : List Char → List Char → Bool
  | [], _ => true
  | _ :: _, [] => false
  | p :: ps, c :: cs => p = c && startsWithCL ps cs

/-- Python `needle in hay` on characters. -/
def containsCL (needle : List Char) : List Char → Bool
  | [] => needle.isEmpty
  | c :: rest => startsWithCL needle (c :: rest) || containsCL needle rest

def pyIn (needle hay : String) : Bool :=
  containsCL needle.data hay.data

def digitVal (c : Char) : Option Nat :=
  if '0' ≤ c ∧ c ≤ '9' then some (c.toNat - '0'.toNat) else none

/-- Parse a nonempty all-digit string as a natural number. -/
def natOfString (s : String) : Option Nat :=
  match s.data with
  | [] => none
  | l =>
    l.foldl
      (fun acc c =>
        match acc, digitVal c with
        | some n, some d => some (n * 10 + d)
        | _, _ => none)
      (some 0)

/-- Join strings with a separator (`sep.join` / `String.intercalate`). -/
def joinSep (sep : String) : List String → String
  | [] => ""
  | [x] => x
  | x :: xs => x ++ sep ++ joinSep sep xs

def isLeapYear (y : Nat) : Bool :=
  (y % 4 = 0 && y % 100 ≠ 0) || y % 400 = 0

def daysInMonth (y m : Nat) : Nat :=
  if m = 2 then (if isLeapYear y then 29 else 28)
  else if m = 4 || m = 6 || m = 9 || m = 11 then 30
  else 31

/-- Modelled from the spec: `pd.to_datetime(..., errors="coerce")` restricted to
the `YYYY-MM-DD HH:MM` shape that the spec's examples use; any string that does
not parse (including the "nan" produced by string-casting a missing value)
yields `none`, never an error. -/
def toDatetime (s : String) : Option DateTime :=
  match pySplit ' ' s with
  | [ds, ts] =>
    match pySplit '-' ds, pySplit ':' ts with
    | [ys, ms, dds], [hs, mins] =>
      match natOfString ys, natOfString ms, natOfString dds,
            natOfString hs, natOfString mins with
      | some y, some m, some d, some h, some mi =>
        if 1 ≤ m ∧ m ≤ 12 ∧ 1 ≤ d ∧ d ≤ daysInMonth y m ∧ h ≤ 23 ∧ mi ≤ 59
        then some ⟨y, m, d, h, mi⟩ else none
      | _, _, _, _, _ => none
    | _, _ => none
  | _ => none

/-- Day of week with Monday = 0, as pandas `.dt.dayofweek` reports it.
Computed from the civil-days formula; 1970-01-01 (epoch day 0) was a Thursday. -/
def daysFromCivil (y m d : Int) : Int :=
  let y' := y - (if m ≤ 2 then 1 else 0)
  let era := (if y' ≥ 0 then y' else y' - 399) / 400
  let yoe := y' - era * 400
  let doy := (153 * (m + (if m > 2 then -3 else 9)) + 2) / 5 + d - 1
  let doe := yoe * 365 + yoe / 4 - yoe / 100 + doy
  era * 146097 + doe - 719468

def dayOfWeekMon0 (y m d : Nat) : Nat :=
  ((daysFromCivil y m d + 3) % 7).toNat

/-! ## data_loader.py -/

/-- `REQUIRED_COLUMNS` from data_loader.py. -/
def REQUIRED_COLUMNS : List String :=
  [ "Patient Id",
    "Patient Admission Date",
    "Patient Admission Time",
    "Merged",
    "Patient Gender",
    "Patient Age",
    "Patient Race",
    "Department Referral",
    "Patient Admission Flag",
    "Patient Satisfaction Score",
    "Patient Waittime" ]

/-- One raw CSV row, with fields already under the canonical names produced by
`standardise_columns` (that function only renames columns).  Every field is
optional: the raw extract guarantees nothing. -/
structure RawRow where
  patient_id : Option String
  admission_date : Option String
  admission_time : Option String
  merged_datetime : Option String
  gender : Option String
  age : Option String
  race : Option String
  department : Option String
  admitted_raw : Option String
  satisfaction_score : Option String
  wait_time_minutes : Option String
deriving DecidableEq, Repr

/-- A raw table: its header (column names, checked by `validate_schema`) and
its rows. -/
structure RawTable where
  columns : List String
  rows : List RawRow
deriving Repr

/-- `validate_schema` from data_loader.py: collect the required columns that
are absent and fail with that list when it is nonempty. -/
def missing_columns (cols : List String) : List String :=
  REQUIRED_COLUMNS.filter (fun c => !(cols.contains c))

def validate_schema (cols : List String) : Except (List String) Unit :=
  let missing := missing_columns cols
  if missing.isEmpty then Except.ok () else Except.error missing

/-- `parse_datetimes` from data_loader.py, per row: parse the combined
`merged_datetime` field; parse the concatenation (with one space) of the
string-cast admission date and time as a fallback; `combine_first` keeps the
merged value when it parsed and otherwise takes the fallback. -/
def parse_datetimes (parse : String → Option DateTime) (r : RawRow) : Option DateTime :=
  let merged := r.merged_datetime.bind parse
  let arrival := parse (pyStr r.admission_date ++ " " ++ pyStr r.admission_time)
  match merged with
  | some dt => some dt
  | none => arrival

/-- `map_admission_flag` from data_loader.py: string-cast, strip, lowercase,
then look the result up in the fixed mapping dict; anything not in the dict
maps to missing. -/
def admissionLookup (s : String) : Option ℚ :=
  if s = "admission" then some 1
  else if s = "not admission" then some 0
  else if s = "1" then some 1
  else if s = "0" then some 0
  else if s = "true" then some 1
  else if s = "false" then some 0
  else if s = "yes" then some 1
  else if s = "no" then some 0
  else none

def map_admission_flag (admitted_raw : Option String) : Option ℚ :=
  admissionLookup (pyLower (pyStrip (pyStr admitted_raw)))

/-- One cleaned row, as written to the processed snapshot (the raw admission
flag column is dropped from the output). -/
structure CleanRow where
  patient_id : Option String
  event_datetime : Option DateTime
  event_date : Option Date
  event_hour : Option Nat
  event_dayofweek : Option Nat
  event_month : Option Nat
  gender : String
  age : Option ℚ
  race : String
  department : String
  admitted : Option ℚ
  satisfaction_score : Option ℚ
  wait_time_minutes : Option ℚ
deriving DecidableEq, Repr

/-- The per-row effect of `parse_datetimes` (event columns), the numeric
coercions and admission-flag mapping of `basic_cleaning`, and the categorical
whitespace strip (`astype(str).str.strip()`, so a missing categorical becomes
the string "nan"). -/
def cleanRow (parse : String → Option DateTime) (parseNum : String → Option ℚ)
    (r : RawRow) : CleanRow :=
  let edt := parse_datetimes parse r
  { patient_id := r.patient_id
    event_datetime := edt
    event_date := edt.map (fun dt => ⟨dt.year, dt.month, dt.day⟩)
    event_hour := edt.map (fun dt => dt.hour)
    event_dayofweek := edt.map (fun dt => dayOfWeekMon0 dt.year dt.month dt.day)
    event_month := edt.map (fun dt => dt.month)
    gender := pyStrip (pyStr r.gender)
    age := r.age.bind parseNum
    race := pyStrip (pyStr r.race)
    department := pyStrip (pyStr r.department)
    admitted := map_admission_flag r.admitted_raw
    satisfaction_score := r.satisfaction_score.bind parseNum
    wait_time_minutes := r.wait_time_minutes.bind parseNum }

/-- The conjunction of the four validity filters of `basic_cleaning`: each one
keeps a row whose value is missing or in range, and a row must pass all four
(they are successive dataframe filters, an AND). -/
def rowValid (c : CleanRow) : Bool :=
  (match c.age with
   | none => true
   | some a => decide (0 ≤ a) && decide (a ≤ 120))
  && (match c.wait_time_minutes with
      | none => true
      | some w => decide (0 ≤ w))
  && (match c.satisfaction_score with
      | none => true
      | some v => decide (0 ≤ v) && decide (v ≤ 10))
  && (match c.admitted with
      | none => true
      | some x => x == 0 || x == 1)

/-- `drop_duplicates`: keep the first occurrence of each row. -/
def dropDupAux [DecidableEq α] (seen : List α) : List α → List α
  | [] => []
  | a :: rest => if a ∈ seen then dropDupAux seen rest else a :: dropDupAux (a :: seen) rest

def dropDuplicates [DecidableEq α] (l : List α) : List α :=
  dropDupAux [] l

/-- `basic_cleaning` from data_loader.py over a list of raw rows: deduplicate,
apply the per-row coercions/mappings, and keep exactly the rows passing all
four validity filters. -/
def basic_cleaning (parse : String → Option DateTime) (parseNum : String → Option ℚ)
    (rows : List RawRow) : List CleanRow :=
  ((dropDuplicates rows).map (cleanRow parse parseNum)).filter rowValid

/-- `main` of data_loader.py up to the point data leaves the module: validate
the schema first (fatal error carrying the missing-column list, before any
transformation), then standardise/parse/clean and emit the snapshot rows. -/
def ingest_main (parse : String → Option DateTime) (parseNum : String → Option ℚ)
    (t : RawTable) : Except (List String) (List CleanRow) :=
  match validate_schema t.columns with
  | Except.error missing => Except.error missing
  | Except.ok _ => Except.ok (basic_cleaning parse parseNum t.rows)

/-! ## build_gold.py -/

/-- SQL `SELECT DISTINCT department FROM silver_encounters` over the cleaned
snapshot (one value per row; the cleaned column is a string, never NULL). -/
def distinct_departments_raw (s : List CleanRow) : List String :=
  dropDuplicates (s.map (fun c => c.department))

/-- The dimension's candidate names: distinct departments with the NULL check
and the `department <> 'nan'` filter of the dim_department query applied. -/
def distinct_departments (s : List CleanRow) : List String :=
  (distinct_departments_raw s).filter (fun d => d ≠ "nan")

/-- Consecutive surrogate keys starting at `k`, in list order: this is what
`dense_rank() OVER (ORDER BY department)` assigns once the names are distinct
and sorted ascending. -/
def numberFrom (k : Nat) : List String → List (Nat × String)
  | [] => []
  | d :: rest => (k, d) :: numberFrom (k + 1) rest

/-- `dim_department` from build_gold.py: distinct non-null, non-'nan'
department names, ordered alphabetically, each paired with its dense rank
(1-based). -/
def dim_department (s : List CleanRow) : List (Nat × String) :=
  numberFrom 1 ((distinct_departments s).insertionSort (fun a b => a ≤ b))

/-- The department foreign key produced by the fact table's
`LEFT JOIN dim_department d ON s.department = d.department_name`:
the key of the dimension row whose name matches, else NULL. -/
def deptKey (dim : List (Nat × String)) (name : String) : Option Nat :=
  (dim.find? (fun p => p.2 = name)).map (fun p => p.1)

/-- One row of `fact_encounter`. -/
structure FactRow where
  encounter_id : Nat
  patient_id : Option String
  department_id : Option Nat
  event_datetime : Option DateTime
  event_date : Option Date
  event_hour : Option Nat
  event_dayofweek : Option Nat
  event_month : Option Nat
  age : Option ℚ
  gender : String
  race : String
  wait_time_minutes : Option ℚ
  satisfaction_score : Option ℚ
  admitted : Option Int
deriving DecidableEq, Repr

/-- The projection of one cleaned row into the fact table, given its
`row_number()` and the department dimension. -/
def mkFact (k : Nat) (dim : List (Nat × String)) (c : CleanRow) : FactRow :=
  { encounter_id := k
    patient_id := c.patient_id
    department_id := deptKey dim c.department
    event_datetime := c.event_datetime
    event_date := c.event_date
    event_hour := c.event_hour
    event_dayofweek := c.event_dayofweek
    event_month := c.event_month
    age := c.age
    gender := c.gender
    race := c.race
    wait_time_minutes := c.wait_time_minutes
    satisfaction_score := c.satisfaction_score
    admitted := c.admitted.map (fun q => q.floor) }

def factRowsFrom (dim : List (Nat × String)) (k : Nat) : List CleanRow → List FactRow
  | [] => []
  | c :: rest => mkFact k dim c :: factRowsFrom dim (k + 1) rest

/-- `fact_encounter` from build_gold.py: every cleaned row (the left join drops
nothing), numbered from 1, with the department key resolved by name. -/
def fact_encounter (s : List CleanRow) : List FactRow :=
  factRowsFrom (dim_department s) 1 s

/-! ## app/main.py -/

/-- The routes registered on the FastAPI app in app/main.py. -/
inductive Route
  | health
  | predict
  | metrics_department
  | metrics_daily_volume
deriving DecidableEq, Repr

def app_routes : List Route :=
  [Route.health, Route.predict, Route.metrics_department, Route.metrics_daily_volume]

def isPredictionRoute : Route → Bool
  | Route.predict => true
  | _ => false

/-- A candidate request body for `POST /predict`: any of the seven fields may
be absent from the JSON body. -/
structure AdmissionRequestInput where
  age : Option ℚ
  gender : Option String
  race : Option String
  department_id : Option Int
  event_hour : Option Int
  event_dayofweek : Option Int
  wait_time_minutes : Option ℚ
deriving DecidableEq, Repr

/-- A validated `AdmissionRequest` (the pydantic model of app/main.py): all
seven fields present, with the declared `Field` bounds satisfied. -/
structure AdmissionRequest where
  age : ℚ
  gender : String
  race : String
  department_id : Int
  event_hour : Int
  event_dayofweek : Int
  wait_time_minutes : ℚ
deriving DecidableEq, Repr

/-- Pydantic validation of `AdmissionRequest`: every field is declared
required (`Field(...)`), with `age` in 0..120, `event_hour` in 0..23,
`event_dayofweek` in 0..6 and `wait_time_minutes ≥ 0`; a body missing any
field or violating a bound is rejected (client error), never imputed. -/
def validateAdmissionRequest (r : AdmissionRequestInput) : Option AdmissionRequest :=
  match r.age, r.gender, r.race, r.department_id,
        r.event_hour, r.event_dayofweek, r.wait_time_minutes with
  | some a, some g, some rc, some d, some h, some dw, some w =>
    if 0 ≤ a ∧ a ≤ 120 ∧ 0 ≤ h ∧ h ≤ 23 ∧ 0 ≤ dw ∧ dw ≤ 6 ∧ 0 ≤ w
    then some ⟨a, g, rc, d, h, dw, w⟩ else none
  | _, _, _, _, _, _, _ => none

structure AdmissionResponse where
  admitted_probability : ℚ
  admitted_prediction : Nat
deriving DecidableEq, Repr

/-- The `/predict` handler of app/main.py, parameterised by the loaded model's
positive-class probability: `pred = int(proba >= 0.5)`. -/
def predict (model : AdmissionRequest → ℚ) (req : AdmissionRequest) : AdmissionResponse :=
  let proba := model req
  { admitted_probability := proba
    admitted_prediction := if (1 : ℚ) / 2 ≤ proba then 1 else 0 }

/-- Modelled from the spec: `OneHotEncoder(handle_unknown="ignore")` from the
training pipeline of train_admission_model.py — one indicator column per
category seen during fit; a category never seen during fit is encoded as the
all-zero vector instead of raising an error. -/
def oneHotEncode (cats : List Int) (x : Int) : List ℚ :=
  cats.map (fun c => if c = x then 1 else 0)

/-- Marker test of `load_metrics_sql`: the stripped, lowercased line starts
with "-- name:". -/
def isNameMarker (line : String) : Bool :=
  startsWithCL "-- name:".data (pyLower (pyStrip line)).data

/-- Python `s.split(":", 1)[1]`: everything after the first colon. -/
def afterFirstColon (s : String) : String :=
  match pySplit ':' s with
  | [] => ""
  | _ :: rest => joinSep ":" rest

/-- The name a marker line declares: the text after the first colon of the
stripped line, stripped. -/
def markerName (line : String) : String :=
  pyStrip (afterFirstColon (pyStrip line))

/-- Python dict insertion: overwrite in place when the key exists, append
otherwise. -/
def dictInsert (k v : String) : List (String × String) → List (String × String)
  | [] => [(k, v)]
  | (k', v') :: rest => if k' = k then (k, v) :: rest else (k', v') :: dictInsert k v rest

/-- The `if current_name and current_sql_lines` save step of
`load_metrics_sql`: a pending block is stored only when its name is truthy
(non-empty) and it accumulated at least one line; the stored text is the
accumulated lines joined and stripped. -/
def saveBlock (blocks : List (String × String)) (name? : Option String)
    (acc : List String) : List (String × String) :=
  match name? with
  | some name =>
    if name = "" ∨ acc = [] then blocks
    else dictInsert name (pyStrip (joinSep "\n" acc)) blocks
  | none => blocks

/-- The line loop of `load_metrics_sql`: a marker line saves the pending block
and opens a new one; any other line accumulates into the open block, or is
discarded when no block is open; the last pending block is saved at end of
file. -/
def load_sql_loop : List String → Option String → List String →
    List (String × String) → List (String × String)
  | [], name?, acc, blocks => saveBlock blocks name? acc
  | line :: rest, name?, acc, blocks =>
    if isNameMarker line then
      load_sql_loop rest (some (markerName line)) [] (saveBlock blocks name? acc)
    else
      match name? with
      | some n => load_sql_loop rest (some n) (acc ++ [line]) blocks
      | none => load_sql_loop rest none acc blocks

def noBlocksMsg : String :=
  "No named SQL blocks found in sql/metrics_queries.sql. Add blocks like: -- name: department_metrics"

/-- `load_metrics_sql` from app/main.py over the file's lines: parse the named
blocks; an empty result is a fatal startup error (RuntimeError). -/
def load_metrics_sql (lines : List String) : Except String (List (String × String)) :=
  let blocks := load_sql_loop lines none [] []
  if blocks.isEmpty then Except.error noBlocksMsg else Except.ok blocks

/-- Column types of a query result, as far as the service's JSON rendering
distinguishes them. -/
inductive SqlType
  | date
  | number
  | text
deriving DecidableEq, Repr

structure QCol where
  name : String
  ty : SqlType
deriving DecidableEq, Repr

/-- The per-column effect of `duckdb_query_to_records`: a column whose
lowercased name contains "date" is cast to string for JSON transport. -/
def renderCol (c : QCol) : QCol :=
  if pyIn "date" (pyLower c.name) then { c with ty := SqlType.text } else c

def duckdb_query_to_records_cols (cols : List QCol) : List QCol :=
  cols.map renderCol

/-- Modelled from the spec: sql/metrics_queries.sql is not in the source tree;
per the spec the named query behind `GET /metrics/department` reads the
`gold_department_waits` aggregate built in build_gold.py, whose columns (and
DuckDB types) are these. -/
def department_metrics_cols : List QCol :=
  [ ⟨"department_id", SqlType.number⟩,
    ⟨"encounters", SqlType.number⟩,
    ⟨"avg_wait_time_minutes", SqlType.number⟩,
    ⟨"median_wait_time_minutes", SqlType.number⟩,
    ⟨"p90_wait_time_minutes", SqlType.number⟩ ]

/-- Modelled from the spec: the named query behind `GET /metrics/daily-volume`
reads the `gold_daily_volume` aggregate built in build_gold.py, whose columns
(and DuckDB types) are these; `event_date` is a DATE column. -/
def daily_volume_cols : List QCol :=
  [ ⟨"event_date", SqlType.date⟩,
    ⟨"encounters", SqlType.number⟩,
    ⟨"avg_wait_time_minutes", SqlType.number⟩,
    ⟨"avg_satisfaction", SqlType.number⟩ ]

/-! ## Concrete instances used to exercise the definitions -/

/-- A simple numeric parser (natural-number literals), used as a concrete
instance of the quantified `pd.to_numeric` parameter when the statements are
evaluated on concrete data. -/
def natNum (s : String) : Option ℚ :=
  (natOfString s).map (fun n => (n : ℚ))

/-- A raw row whose combined field parses and whose fallback fields also
parse, to a different timestamp. -/
def rawBoth : RawRow :=
  { patient_id := some "p1"
    admission_date := some "2024-01-05"
    admission_time := some "09:00"
    merged_datetime := some "2024-01-05 14:30"
    gender := some "Female"
    age := some "45"
    race := some "White"
    department := some "ER"
    admitted_raw := some "Admission"
    satisfaction_score := some "8"
    wait_time_minutes := some "30" }

/-- A raw row with no combined value and no department. -/
def rawNoMerged : RawRow :=
  { patient_id := some "p2"
    admission_date := some "2024-02-01"
    admission_time := some "10:15"
    merged_datetime := none
    gender := none
    age := some "60"
    race := none
    department := none
    admitted_raw := some "Not Admission"
    satisfaction_score := none
    wait_time_minutes := some "12" }

def rowsEx : List RawRow := [rawBoth, rawNoMerged]

def cleanEx : CleanRow := cleanRow toDatetime natNum rawBoth

/-- A cleaned row violating the age bound, used to exercise the filters. -/
def cleanBad : CleanRow :=
  { patient_id := some "p3"
    event_datetime := none
    event_date := none
    event_hour := none
    event_dayofweek := none
    event_month := none
    gender := "Male"
    age := some 200
    race := "White"
    department := "ER"
    admitted := some 1
    satisfaction_score := none
    wait_time_minutes := none }

/-- A raw table missing most required columns. -/
def tableMissingEx : RawTable :=
  { columns := ["Patient Id", "Patient Gender"], rows := [] }

/-- A cleaned snapshot row whose department is the "nan" sentinel. -/
def cleanNan : CleanRow :=
  { patient_id := some "p4"
    event_datetime := none
    event_date := none
    event_hour := none
    event_dayofweek := none
    event_month := none
    gender := "Female"
    age := none
    race := "Asian"
    department := "nan"
    admitted := none
    satisfaction_score := none
    wait_time_minutes := none }

/-- A cleaned snapshot row with an ordinary department. -/
def cleanER : CleanRow :=
  { patient_id := some "p5"
    event_datetime := none
    event_date := none
    event_hour := none
    event_dayofweek := none
    event_month := none
    gender := "Male"
    age := some 30
    race := "Black"
    department := "ER"
    admitted := some 0
    satisfaction_score := some 7
    wait_time_minutes := some 20 }

def snapEx : List CleanRow := [cleanNan, cleanER]

def reqEx : AdmissionRequest :=
  { age := 45, gender := "Female", race := "White", department_id := 3
    event_hour := 14, event_dayofweek := 2, wait_time_minutes := 30 }

/-! ## Helper lemmas -/

theorem numberFrom_map_fst (l : List String) (k : Nat) :
    (numberFrom k l).map Prod.fst = List.range' k l.length := by
  induction l generalizing k with
  | nil => rfl
  | cons d rest ih => simp [numberFrom, List.range'_succ, ih]

theorem mem_numberFrom_snd {p : Nat × String} (l : List String) (k : Nat)
    (h : p ∈ numberFrom k l) : p.2 ∈ l := by
  induction l generalizing k with
  | nil => simp [numberFrom] at h
  | cons d rest ih =>
    simp only [numberFrom, List.mem_cons] at h
    rcases h with rfl | h
    · exact List.mem_cons_self _ _
    · exact List.mem_cons_of_mem _ (ih _ h)

theorem dim_department_snd_ne_nan (s : List CleanRow) (p : Nat × String)
    (h : p ∈ dim_department s) : p.2 ≠ "nan" := by
  unfold dim_department at h
  have h2 := mem_numberFrom_snd _ _ h
  rw [List.mem_insertionSort] at h2
  have h3 := List.mem_filter.mp h2
  simpa using h3.2

theorem factRowsFrom_length (dim : List (Nat × String)) (k : Nat) (s : List CleanRow) :
    (factRowsFrom dim k s).length = s.length := by
  induction s generalizing k with
  | nil => rfl
  | cons c rest ih => simp [factRowsFrom, ih]

theorem factRowsFrom_getElem (dim : List (Nat × String)) (k : Nat) (s : List CleanRow)
    (i : Nat) :
    (factRowsFrom dim k s)[i]? = (s[i]?).map (fun c => mkFact (k + i) dim c) := by
  induction s generalizing k i with
  | nil => simp [factRowsFrom]
  | cons c rest ih =>
    cases i with
    | zero => simp [factRowsFrom]
    | succ j =>
      simp only [factRowsFrom, List.getElem?_cons_succ, ih]
      have hk : k + (j + 1) = k + 1 + j := by omega
      rw [hk]

theorem admissionLookup_cases (s : String) :
    admissionLookup s = none ∨ admissionLookup s = some 0 ∨ admissionLookup s = some 1 := by
  unfold admissionLookup
  split_ifs <;> simp

theorem oneHotEncode_unseen (cats : List Int) (x : Int) (h : x ∉ cats) :
    oneHotEncode cats x = List.replicate cats.length 0 := by
  induction cats with
  | nil => rfl
  | cons c rest ih =>
    have hne : c ≠ x := fun he => h (he ▸ List.mem_cons_self c rest)
    have ih' := ih (fun hm => h (List.mem_cons_of_mem _ hm))
    simp only [oneHotEncode] at ih' ⊢
    simp [List.replicate_succ, hne, ih']

theorem load_sql_loop_none (lines : List String) (blocks : List (String × String))
    (h : ∀ l ∈ lines, isNameMarker l = false) :
    load_sql_loop lines none [] blocks = blocks := by
  induction lines with
  | nil => rfl
  | cons l rest ih =>
    have hl := h l (List.mem_cons_self l rest)
    simp only [load_sql_loop, hl, Bool.false_eq_true, if_false]
    exact ih (fun x hx => h x (List.mem_cons_of_mem _ hx))

theorem load_sql_loop_some (body : List String) (n : String)
    (blocks : List (String × String)) (h : ∀ l ∈ body, isNameMarker l = false) :
    ∀ acc, load_sql_loop body (some n) acc blocks = saveBlock blocks (some n) (acc ++ body) := by
  induction body with
  | nil => intro acc; simp [load_sql_loop]
  | cons l rest ih =>
    intro acc
    have hl := h l (List.mem_cons_self l rest)
    simp only [load_sql_loop, hl, Bool.false_eq_true, if_false]
    rw [ih (fun x hx => h x (List.mem_cons_of_mem _ hx)) (acc ++ [l])]
    simp

theorem load_sql_loop_append (body rest : List String) (n : String)
    (blocks : List (String × String)) (h : ∀ l ∈ body, isNameMarker l = false) :
    ∀ acc, load_sql_loop (body ++ rest) (some n) acc blocks
      = load_sql_loop rest (some n) (acc ++ body) blocks := by
  induction body with
  | nil => intro acc; simp
  | cons l body' ih =>
    intro acc
    have hl := h l (List.mem_cons_self l body')
    simp only [List.cons_append, load_sql_loop, hl, Bool.false_eq_true, if_false,
      List.append_eq]
    rw [ih (fun x hx => h x (List.mem_cons_of_mem _ hx)) (acc ++ [l])]
    simp

/-! ## Claims -/

/-- C1: the cleaned `event_datetime` equals the parse of the combined
'Merged' field when that parse succeeds; otherwise it equals the parse of the
concatenation of the separate admission date and time fields (so if both fail
it is null, the fallback parse being null itself); and on the concrete example
(combined "2024-01-05 14:30", separate "2024-01-05" / "09:00", both of which
parse) the combined field wins, giving 2024-01-05T14:30. -/
theorem c1_event_datetime_prefers_combined (parse : String → Option DateTime)
    (r1 r2 : RawRow) (dt : DateTime)
    (h1 : r1.merged_datetime.bind parse = some dt)
    (h2 : r2.merged_datetime.bind parse = none) :
    parse_datetimes parse r1 = some dt
    ∧ parse_datetimes parse r2
        = parse (pyStr r2.admission_date ++ " " ++ pyStr r2.admission_time)
    ∧ parse_datetimes toDatetime rawBoth = some ⟨2024, 1, 5, 14, 30⟩ := by
  refine ⟨?_, ?_, by decide⟩
  · simp [parse_datetimes, h1]
  · simp [parse_datetimes, h2]

/-- Witness for C1 at concrete rows: `rawBoth` has a parseable combined field,
`rawNoMerged` has none. -/
theorem c1_witness :
    parse_datetimes toDatetime rawBoth = some ⟨2024, 1, 5, 14, 30⟩
    ∧ parse_datetimes toDatetime rawNoMerged
        = toDatetime (pyStr rawNoMerged.admission_date ++ " " ++ pyStr rawNoMerged.admission_time)
    ∧ parse_datetimes toDatetime rawBoth = some ⟨2024, 1, 5, 14, 30⟩ :=
  c1_event_datetime_prefers_combined toDatetime rawBoth rawNoMerged
    ⟨2024, 1, 5, 14, 30⟩ (by decide) (by decide)

/-- C2: every row surviving `basic_cleaning` has each bounded field within its
declared range or null (age 0-120, wait ≥ 0, satisfaction 0-10, admitted in
0/1), and the filters act as a conjunction: any row failing one of the four
validity checks is absent from the output entirely. -/
theorem c2_cleaned_rows_within_bounds (parse : String → Option DateTime)
    (parseNum : String → Option ℚ) (rows : List RawRow) (c c' : CleanRow)
    (hc : c ∈ basic_cleaning parse parseNum rows)
    (hbad : rowValid c' = false) :
    (c.age = none ∨ ∃ a, c.age = some a ∧ 0 ≤ a ∧ a ≤ 120)
    ∧ (c.wait_time_minutes = none ∨ ∃ w, c.wait_time_minutes = some w ∧ 0 ≤ w)
    ∧ (c.satisfaction_score = none ∨ ∃ v, c.satisfaction_score = some v ∧ 0 ≤ v ∧ v ≤ 10)
    ∧ (c.admitted = none ∨ c.admitted = some 0 ∨ c.admitted = some 1)
    ∧ c' ∉ basic_cleaning parse parseNum rows := by
  have hv : rowValid c = true := (List.mem_filter.mp hc).2
  unfold rowValid at hv
  simp only [Bool.and_eq_true] at hv
  obtain ⟨⟨⟨ha, hw⟩, hs⟩, hadm⟩ := hv
  refine ⟨?_, ?_, ?_, ?_, ?_⟩
  · cases hag : c.age with
    | none => exact Or.inl rfl
    | some a =>
      rw [hag] at ha
      simp only [Bool.and_eq_true, decide_eq_true_eq] at ha
      exact Or.inr ⟨a, rfl, ha.1, ha.2⟩
  · cases hwg : c.wait_time_minutes with
    | none => exact Or.inl rfl
    | some w =>
      rw [hwg] at hw
      simp only [decide_eq_true_eq] at hw
      exact Or.inr ⟨w, rfl, hw⟩
  · cases hsg : c.satisfaction_score with
    | none => exact Or.inl rfl
    | some v =>
      rw [hsg] at hs
      simp only [Bool.and_eq_true, decide_eq_true_eq] at hs
      exact Or.inr ⟨v, rfl, hs.1, hs.2⟩
  · cases hadg : c.admitted with
    | none => exact Or.inl rfl
    | some x =>
      rw [hadg] at hadm
      simp only [Bool.or_eq_true, beq_iff_eq] at hadm
      rcases hadm with rfl | rfl
      · exact Or.inr (Or.inl rfl)
      · exact Or.inr (Or.inr rfl)
  · intro hmem
    have hv' := (List.mem_filter.mp hmem).2
    rw [hbad] at hv'
    exact Bool.false_ne_true hv'

/-- Witness for C2: `cleanEx` survives cleaning of `rowsEx`, while `cleanBad`
(age 200) is rejected. -/
theorem c2_witness :
    (cleanEx.age = none ∨ ∃ a, cleanEx.age = some a ∧ 0 ≤ a ∧ a ≤ 120)
    ∧ (cleanEx.wait_time_minutes = none ∨ ∃ w, cleanEx.wait_time_minutes = some w ∧ 0 ≤ w)
    ∧ (cleanEx.satisfaction_score = none
        ∨ ∃ v, cleanEx.satisfaction_score = some v ∧ 0 ≤ v ∧ v ≤ 10)
    ∧ (cleanEx.admitted = none ∨ cleanEx.admitted = some 0 ∨ cleanEx.admitted = some 1)
    ∧ cleanBad ∉ basic_cleaning toDatetime natNum rowsEx :=
  c2_cleaned_rows_within_bounds toDatetime natNum rowsEx cleanEx cleanBad
    (by decide) (by decide)

/-- C3: the department dimension pairs the distinct, non-null, non-"nan"
department names, taken in alphabetical order, with exactly the keys
1..N (N the count of those distinct names), and rebuilding from identical
input yields the identical assignment. -/
theorem c3_department_keys_dense_rank (s t : List CleanRow) (h : s = t) :
    (dim_department s).map Prod.fst = List.range' 1 (distinct_departments s).length
    ∧ dim_department s = dim_department t := by
  constructor
  · unfold dim_department
    rw [numberFrom_map_fst, List.length_insertionSort]
  · rw [h]

/-- Witness for C3 on the two-row snapshot `snapEx` (departments "nan" and
"ER": one key). -/
theorem c3_witness :
    (dim_department snapEx).map Prod.fst = List.range' 1 (distinct_departments snapEx).length
    ∧ dim_department snapEx = dim_department snapEx :=
  c3_department_keys_dense_rank snapEx snapEx rfl

/-- C4: admission-flag normalization is the trimmed, lowercased lookup in the
fixed vocabulary ("admission" to 1, "not admission" to 0, with the 1/0,
true/false, yes/no synonyms); any other string maps to null, so the mapped
value is always 0, 1 or null, and so is the `admitted` field of every cleaned
row. -/
theorem c4_admission_flag_normalization (parse : String → Option DateTime)
    (parseNum : String → Option ℚ) (rows : List RawRow) (c : CleanRow)
    (v : Option String) (raw : String)
    (hc : c ∈ basic_cleaning parse parseNum rows) :
    map_admission_flag (some raw) = admissionLookup (pyLower (pyStrip raw))
    ∧ map_admission_flag (some "admission") = some 1
    ∧ map_admission_flag (some "not admission") = some 0
    ∧ map_admission_flag (some "  ADMISSION  ") = some 1
    ∧ map_admission_flag (some "1") = some 1
    ∧ map_admission_flag (some "0") = some 0
    ∧ map_admission_flag (some "true") = some 1
    ∧ map_admission_flag (some "false") = some 0
    ∧ map_admission_flag (some "yes") = some 1
    ∧ map_admission_flag (some "no") = some 0
    ∧ (map_admission_flag v = none
        ∨ map_admission_flag v = some 0 ∨ map_admission_flag v = some 1)
    ∧ (c.admitted = none ∨ c.admitted = some 0 ∨ c.admitted = some 1) := by
  refine ⟨rfl, by decide, by decide, by decide, by decide, by decide, by decide,
    by decide, by decide, by decide, admissionLookup_cases _, ?_⟩
  obtain ⟨hm, _⟩ := List.mem_filter.mp hc
  obtain ⟨r, _, rfl⟩ := List.mem_map.mp hm
  exact admissionLookup_cases (pyLower (pyStrip (pyStr r.admitted_raw)))

/-- Witness for C4 at a concrete unrecognized string and the concrete cleaned
row `cleanEx`. -/
theorem c4_witness :
    map_admission_flag (some "  Yes ") = admissionLookup (pyLower (pyStrip "  Yes "))
    ∧ map_admission_flag (some "admission") = some 1
    ∧ map_admission_flag (some "not admission") = some 0
    ∧ map_admission_flag (some "  ADMISSION  ") = some 1
    ∧ map_admission_flag (some "1") = some 1
    ∧ map_admission_flag (some "0") = some 0
    ∧ map_admission_flag (some "true") = some 1
    ∧ map_admission_flag (some "false") = some 0
    ∧ map_admission_flag (some "yes") = some 1
    ∧ map_admission_flag (some "no") = some 0
    ∧ (map_admission_flag (some "discharged to ward") = none
        ∨ map_admission_flag (some "discharged to ward") = some 0
        ∨ map_admission_flag (some "discharged to ward") = some 1)
    ∧ (cleanEx.admitted = none ∨ cleanEx.admitted = some 0 ∨ cleanEx.admitted = some 1) :=
  c4_admission_flag_normalization toDatetime natNum rowsEx cleanEx
    (some "discharged to ward") "  Yes " (by decide)

/-- C5: for a valid request, the response probability lies in the unit
interval (the classifier emits a probability) and the binary prediction is 1
exactly when the probability reaches the 0.5 threshold; a department id never
seen during training is one-hot encoded as the all-zero vector, so the call
succeeds rather than erroring. -/
theorem c5_predict_contract (model : AdmissionRequest → ℚ) (req : AdmissionRequest)
    (cats : List Int) (dept : Int)
    (hm : 0 ≤ model req ∧ model req ≤ 1) (hd : dept ∉ cats) :
    (0 ≤ (predict model req).admitted_probability
      ∧ (predict model req).admitted_probability ≤ 1)
    ∧ ((predict model req).admitted_prediction = 1
        ↔ (1 : ℚ) / 2 ≤ (predict model req).admitted_probability)
    ∧ oneHotEncode cats dept = List.replicate cats.length 0 := by
  refine ⟨⟨hm.1, hm.2⟩, ?_, oneHotEncode_unseen cats dept hd⟩
  unfold predict
  by_cases h : (1 : ℚ) / 2 ≤ model req
  · simp [h]
  · simp [h]

/-- Witness for C5 with a constant-3/4 model, the request `reqEx`, and the
unseen department id 99 against trained categories 1..3. -/
theorem c5_witness :
    (0 ≤ (predict (fun _ => (3 : ℚ) / 4) reqEx).admitted_probability
      ∧ (predict (fun _ => (3 : ℚ) / 4) reqEx).admitted_probability ≤ 1)
    ∧ ((predict (fun _ => (3 : ℚ) / 4) reqEx).admitted_prediction = 1
        ↔ (1 : ℚ) / 2 ≤ (predict (fun _ => (3 : ℚ) / 4) reqEx).admitted_probability)
    ∧ oneHotEncode [1, 2, 3] 99 = List.replicate ([1, 2, 3] : List Int).length 0 :=
  c5_predict_contract (fun _ => (3 : ℚ) / 4) reqEx [1, 2, 3] 99
    ⟨by norm_num, by norm_num⟩ (by decide)

/-- C6: named-query loading parses marker-delimited blocks — a marker line
opens a block named by the (stripped) text after the colon; the nonmarker
lines up to the next marker or end of file become that block's text, joined
and trimmed of surrounding whitespace; and a file yielding zero named blocks
(in particular one with no recognized marker at all) is a fatal startup error
rather than an empty query set.  Stated for: any file whose parse produces
zero blocks; any marker-free file; a one-marker file (the block runs to end
of file); and a two-marker file (the first block's lines stop at the next
marker, which opens the second block, running to end of file). -/
theorem c6_named_query_loading (zlines nmlines : List String) (mline1 mline2 : String)
    (body1 body2 : List String)
    (hz : load_sql_loop zlines none [] [] = [])
    (hnm : ∀ l ∈ nmlines, isNameMarker l = false)
    (hm1 : isNameMarker mline1 = true)
    (hm2 : isNameMarker mline2 = true)
    (hn1 : markerName mline1 ≠ "")
    (hn2 : markerName mline2 ≠ "")
    (hnames : markerName mline1 ≠ markerName mline2)
    (hb1 : body1 ≠ [])
    (hb2 : body2 ≠ [])
    (h1 : ∀ l ∈ body1, isNameMarker l = false)
    (h2 : ∀ l ∈ body2, isNameMarker l = false) :
    load_metrics_sql zlines = Except.error noBlocksMsg
    ∧ load_metrics_sql nmlines = Except.error noBlocksMsg
    ∧ load_metrics_sql (mline1 :: body1)
        = Except.ok [(markerName mline1, pyStrip (joinSep "\n" body1))]
    ∧ load_metrics_sql (mline1 :: (body1 ++ mline2 :: body2))
        = Except.ok [(markerName mline1, pyStrip (joinSep "\n" body1)),
            (markerName mline2, pyStrip (joinSep "\n" body2))] := by
  have hcond1 : ¬(markerName mline1 = "" ∨ body1 = []) := by
    rintro (h | h)
    · exact hn1 h
    · exact hb1 h
  have hcond2 : ¬(markerName mline2 = "" ∨ body2 = []) := by
    rintro (h | h)
    · exact hn2 h
    · exact hb2 h
  refine ⟨?_, ?_, ?_, ?_⟩
  · unfold load_metrics_sql
    rw [hz]
    rfl
  · unfold load_metrics_sql
    rw [load_sql_loop_none nmlines [] hnm]
    rfl
  · unfold load_metrics_sql
    simp only [load_sql_loop, hm1, if_true]
    rw [load_sql_loop_some body1 (markerName mline1) (saveBlock [] none []) h1 []]
    simp only [List.nil_append, saveBlock, hcond1, if_false, dictInsert]
    rfl
  · unfold load_metrics_sql
    simp only [load_sql_loop, hm1, if_true]
    rw [load_sql_loop_append body1 (mline2 :: body2) (markerName mline1)
      (saveBlock [] none []) h1 []]
    simp only [List.nil_append, load_sql_loop, hm2, if_true]
    rw [load_sql_loop_some body2 (markerName mline2)
      (saveBlock (saveBlock [] none []) (some (markerName mline1)) body1) h2 []]
    simp only [List.nil_append, saveBlock, hcond1, hcond2, if_false, dictInsert]
    rw [if_neg hnames]
    rfl

/-- Witness for C6: a marker line with an empty body yields zero blocks and
errors; a marker-free file errors; a one-block file parses to its block; a
two-marker file parses to two blocks, the first block's text stopping at the
second marker. -/
theorem c6_witness :
    load_metrics_sql ["-- name: empty_block"] = Except.error noBlocksMsg
    ∧ load_metrics_sql ["SELECT 1", ""] = Except.error noBlocksMsg
    ∧ load_metrics_sql ("-- name: department_metrics" :: ["SELECT avg(x) FROM t"])
        = Except.ok [(markerName "-- name: department_metrics",
            pyStrip (joinSep "\n" ["SELECT avg(x) FROM t"]))]
    ∧ load_metrics_sql ("-- name: department_metrics"
          :: (["SELECT avg(x) FROM t"]
            ++ "-- Name: daily_volume"
              :: ["SELECT event_date FROM gold_daily_volume", "ORDER BY event_date"]))
        = Except.ok [(markerName "-- name: department_metrics",
            pyStrip (joinSep "\n" ["SELECT avg(x) FROM t"])),
            (markerName "-- Name: daily_volume",
              pyStrip (joinSep "\n"
                ["SELECT event_date FROM gold_daily_volume", "ORDER BY event_date"]))] :=
  c6_named_query_loading ["-- name: empty_block"] ["SELECT 1", ""]
    "-- name: department_metrics" "-- Name: daily_volume"
    ["SELECT avg(x) FROM t"]
    ["SELECT event_date FROM gold_daily_volume", "ORDER BY event_date"]
    (by decide) (by decide) (by decide) (by decide) (by decide) (by decide)
    (by decide) (by decide) (by decide) (by decide) (by decide)

/-- C7: a raw table missing any required column makes ingestion fail with the
list of missing columns (the offending column reported among them), before any
transformation: no cleaned snapshot is ever produced. -/
theorem c7_missing_columns_fatal (parse : String → Option DateTime)
    (parseNum : String → Option ℚ) (t : RawTable) (col : String) (out : List CleanRow)
    (h1 : col ∈ REQUIRED_COLUMNS) (h2 : t.columns.contains col = false) :
    ingest_main parse parseNum t = Except.error (missing_columns t.columns)
    ∧ col ∈ missing_columns t.columns
    ∧ ingest_main parse parseNum t ≠ Except.ok out := by
  have hcol : col ∈ missing_columns t.columns := by
    unfold missing_columns
    refine List.mem_filter.mpr ⟨h1, ?_⟩
    rw [h2]
    rfl
  have hne : missing_columns t.columns ≠ [] := List.ne_nil_of_mem hcol
  have herr : ingest_main parse parseNum t = Except.error (missing_columns t.columns) := by
    unfold ingest_main validate_schema
    cases hm : missing_columns t.columns with
    | nil => exact absurd hm hne
    | cons a as => simp [hm]
  exact ⟨herr, hcol, by rw [herr]; exact fun hco => Except.noConfusion hco⟩

/-- Witness for C7 on a table carrying only two of the required columns. -/
theorem c7_witness :
    ingest_main toDatetime natNum tableMissingEx
      = Except.error (missing_columns tableMissingEx.columns)
    ∧ "Merged" ∈ missing_columns tableMissingEx.columns
    ∧ ingest_main toDatetime natNum tableMissingEx ≠ Except.ok [] :=
  c7_missing_columns_fatal toDatetime natNum tableMissingEx "Merged" []
    (by decide) (by decide)

/-- C8 counterexample: the claim asserts a second prediction-endpoint variant
that accepts requests with absent fields; in the code the app registers
exactly one prediction route, and its request schema rejects a concrete
request whose `age` field is absent instead of letting the pipeline impute
it. -/
theorem c8_counterexample :
    (app_routes.filter isPredictionRoute).length = 1
    ∧ validateAdmissionRequest
        { age := none, gender := some "Female", race := some "White",
          department_id := some 3, event_hour := some 14, event_dayofweek := some 2,
          wait_time_minutes := some 30 } = none := by
  exact ⟨by decide, by decide⟩

/-- C8 (amended): the prediction endpoint exists in a single variant whose
schema requires all seven feature fields; a request with any field absent is
rejected by validation rather than imputed. -/
theorem c8_single_variant_requires_all_fields (r : AdmissionRequestInput)
    (h : r.age = none ∨ r.gender = none ∨ r.race = none ∨ r.department_id = none
        ∨ r.event_hour = none ∨ r.event_dayofweek = none ∨ r.wait_time_minutes = none) :
    (app_routes.filter isPredictionRoute).length = 1
    ∧ validateAdmissionRequest r = none := by
  refine ⟨by decide, ?_⟩
  obtain ⟨a, g, rc, d, eh, dw, w⟩ := r
  simp only at h
  rcases a with _ | a <;> rcases g with _ | g <;> rcases rc with _ | rc <;>
    rcases d with _ | d <;> rcases eh with _ | eh <;> rcases dw with _ | dw <;>
    rcases w with _ | w <;> simp_all [validateAdmissionRequest]

/-- Witness for C8 at a concrete request missing its gender field. -/
theorem c8_witness :
    (app_routes.filter isPredictionRoute).length = 1
    ∧ validateAdmissionRequest
        { age := some 45, gender := none, race := some "White",
          department_id := some 3, event_hour := some 14, event_dayofweek := some 2,
          wait_time_minutes := some 30 } = none :=
  c8_single_variant_requires_all_fields
    { age := some 45, gender := none, race := some "White",
      department_id := some 3, event_hour := some 14, event_dayofweek := some 2,
      wait_time_minutes := some 30 }
    (Or.inr (Or.inl rfl))

/-- C9: in the responses of the two metrics endpoints, every date-typed column
of the query result is rendered as a string (text) column in the row-oriented
JSON, and the rendered column is part of the corresponding response. -/
theorem c9_date_columns_rendered_as_string (c : QCol)
    (h1 : c ∈ department_metrics_cols ∨ c ∈ daily_volume_cols)
    (h2 : c.ty = SqlType.date) :
    (renderCol c).ty = SqlType.text
    ∧ (renderCol c ∈ duckdb_query_to_records_cols department_metrics_cols
        ∨ renderCol c ∈ duckdb_query_to_records_cols daily_volume_cols) := by
  constructor
  · rcases h1 with h | h
    · simp only [department_metrics_cols, List.mem_cons, List.not_mem_nil, or_false] at h
      rcases h with rfl | rfl | rfl | rfl | rfl <;> first | decide | exact absurd h2 (by decide)
    · simp only [daily_volume_cols, List.mem_cons, List.not_mem_nil, or_false] at h
      rcases h with rfl | rfl | rfl | rfl <;> first | decide | exact absurd h2 (by decide)
  · rcases h1 with h | h
    · exact Or.inl (List.mem_map_of_mem renderCol h)
    · exact Or.inr (List.mem_map_of_mem renderCol h)

/-- Witness for C9 at the `event_date` column of the daily-volume query. -/
theorem c9_witness :
    (renderCol ⟨"event_date", SqlType.date⟩).ty = SqlType.text
    ∧ (renderCol ⟨"event_date", SqlType.date⟩
          ∈ duckdb_query_to_records_cols department_metrics_cols
        ∨ renderCol ⟨"event_date", SqlType.date⟩
          ∈ duckdb_query_to_records_cols daily_volume_cols) :=
  c9_date_columns_rendered_as_string ⟨"event_date", SqlType.date⟩
    (Or.inr (by decide)) rfl

/-- C10: after cleaning, the categorical fields are plain strings — a missing
department becomes the literal "nan" sentinel; the department dimension never
contains the "nan" sentinel; and the fact table retains every snapshot row
(same length), a row whose department is "nan" getting a null department
foreign key. -/
theorem c10_nan_sentinel_handling (parse : String → Option DateTime)
    (parseNum : String → Option ℚ) (r : RawRow) (s : List CleanRow)
    (p : Nat × String) (i : Nat) (c : CleanRow)
    (h1 : r.department = none)
    (h2 : p ∈ dim_department s)
    (h3 : s[i]? = some c)
    (h4 : c.department = "nan") :
    (cleanRow parse parseNum r).department = "nan"
    ∧ p.2 ≠ "nan"
    ∧ (fact_encounter s).length = s.length
    ∧ ∃ f, (fact_encounter s)[i]? = some f ∧ f.department_id = none := by
  refine ⟨?_, dim_department_snd_ne_nan s p h2, factRowsFrom_length _ _ _, ?_⟩
  · show pyStrip (pyStr r.department) = "nan"
    rw [h1]
    decide
  · refine ⟨mkFact (1 + i) (dim_department s) c, ?_, ?_⟩
    · show (factRowsFrom (dim_department s) 1 s)[i]? = _
      rw [factRowsFrom_getElem, h3]
      rfl
    · show deptKey (dim_department s) c.department = none
      rw [h4]
      unfold deptKey
      rw [List.find?_eq_none.mpr]
      · rfl
      · intro x hx
        have hne := dim_department_snd_ne_nan s x hx
        simp [hne]

/-- Witness for C10 on the snapshot `snapEx` (departments "nan" and "ER"). -/
theorem c10_witness :
    (cleanRow toDatetime natNum rawNoMerged).department = "nan"
    ∧ ("ER" : String) ≠ "nan"
    ∧ (fact_encounter snapEx).length = snapEx.length
    ∧ ∃ f, (fact_encounter snapEx)[0]? = some f ∧ f.department_id = none :=
  c10_nan_sentinel_handling toDatetime natNum rawNoMerged snapEx (1, "ER") 0 cleanNan
    (by decide) (by decide) (by decide) (by decide)
